import Mathlib

/-!
Verification of the execution bridge of ExcelSlimmer (`excel_slimmer_qt.py`).

The repository's core is a Qt main window that submits one pipeline job at a
time to a Python worker thread (`PipelineWorker`), translates the pipeline
collaborator's callbacks into Qt signals, and dispatches the signals back to
UI handlers.  We embed that bridge shallowly:

* the pipeline collaborator's visible behaviour in one run is a list of hook
  invocations followed by an outcome (normal return, or an exception message);
* `workerRun` is the translation performed by `PipelineWorker.run`: each hook
  call becomes exactly one emitted signal, a raised exception is caught and
  turned into one final `failed` signal;
* the main-window side is a step function on an explicit UI/supervisor state,
  one case per connected Qt handler.

Percentages are modelled as rationals (the bridge only stores and forwards
them; it performs no floating-point arithmetic on them).  Filesystem queries
(`Path.exists`, `Path.suffix`) are an oracle `World`, since they are external
I/O.
-/

/-- One invocation of a callback hook by the pipeline collaborator
(`run_pipeline_core`'s `log`, `set_status`, `show_error`, `on_finished`
keyword arguments). -/
inductive HookCall where
  | logMsg (msg : String)
  | setStatus (text : String) (progress : Option ℚ)
  | showError (title text : String)
  | onFinished (finalPath : String)
deriving DecidableEq, Repr

/-- A signal emitted by `PipelineWorker` (`log`, `status`, `finished`,
`failed`).  The `status` signal always carries a concrete percentage, because
the Qt signal signature is `Signal(str, float)`. -/
inductive PipelineEvent where
  | logLine (msg : String)
  | statusEvt (text : String) (progress : ℚ)
  | finishedEvt (finalPath : String)
  | failedEvt (msg : String)
deriving DecidableEq, Repr

/-- The externally visible behaviour of one call to `run_pipeline_core`: the
hook invocations it performed, in order, and then either a normal return
(`outcome = none`) or a raised exception with message `e`
(`outcome = some e`).  Hooks listed in `calls` are exactly those invoked
before the return/raise point. -/
structure PipelineBehavior where
  calls : List HookCall
  outcome : Option String
deriving DecidableEq, Repr

/-- The body of `PipelineWorker.run`'s callback translation: every hook call
is emitted as exactly one signal, threading the `last_progress` local through
`set_status_cb` (`if progress is not None: last_progress = progress;
self.status.emit(text, last_progress)`). -/
def runEmit : List HookCall → ℚ → List PipelineEvent
  | [], _ => []
  | HookCall.logMsg m :: rest, lp => PipelineEvent.logLine m :: runEmit rest lp
  | HookCall.setStatus t p :: rest, lp =>
      match p with
      | some q => PipelineEvent.statusEvt t q :: runEmit rest q
      | none => PipelineEvent.statusEvt t lp :: runEmit rest lp
  | HookCall.showError _ txt :: rest, lp => PipelineEvent.failedEvt txt :: runEmit rest lp
  | HookCall.onFinished p :: rest, lp => PipelineEvent.finishedEvt p :: runEmit rest lp

/-- The `except Exception as e` clause of `PipelineWorker.run`: a raised
exception is caught and emitted as one `failed` signal with the f-string
message, so no exception propagates out of the worker thread. -/
def raisedEvents : Option String → List PipelineEvent
  | none => []
  | some e => [PipelineEvent.failedEvt ("예기치 못한 오류: " ++ e)]

/-- `PipelineWorker.run`: signals emitted for one collaborator behaviour.
`last_progress` starts at `0.0`; the `try`/`except` appends the generic
failure signal when the collaborator raised. -/
def workerRun (b : PipelineBehavior) : List PipelineEvent :=
  runEmit b.calls 0 ++ raisedEvents b.outcome

/-- A hook call that reports a terminal outcome (`show_error` or
`on_finished`). -/
def isTerminalCall : HookCall → Bool
  | HookCall.showError _ _ => true
  | HookCall.onFinished _ => true
  | _ => false

/-- A terminal signal (`finished` or `failed`). -/
def isTerminalEvent : PipelineEvent → Bool
  | PipelineEvent.finishedEvt _ => true
  | PipelineEvent.failedEvt _ => true
  | _ => false

/-- The number of raises contributed by the outcome. -/
def outcomeCount : Option String → Nat
  | none => 0
  | some _ => 1

/-- The §6 collaborator contract: a terminal callback fires at most once and
overall exactly one terminal outcome (terminal callback or raise) results. -/
def WellBehaved (b : PipelineBehavior) : Prop :=
  b.calls.countP isTerminalCall + outcomeCount b.outcome = 1

lemma runEmit_countP_terminal (cs : List HookCall) (lp : ℚ) :
    (runEmit cs lp).countP isTerminalEvent = cs.countP isTerminalCall := by
  induction cs generalizing lp with
  | nil => rfl
  | cons c rest ih =>
      cases c with
      | logMsg m => simp [runEmit, List.countP_cons, isTerminalCall, isTerminalEvent, ih]
      | setStatus t p =>
          cases p with
          | some q => simp [runEmit, List.countP_cons, isTerminalCall, isTerminalEvent, ih]
          | none => simp [runEmit, List.countP_cons, isTerminalCall, isTerminalEvent, ih]
      | showError ti tx => simp [runEmit, List.countP_cons, isTerminalCall, isTerminalEvent, ih]
      | onFinished p => simp [runEmit, List.countP_cons, isTerminalCall, isTerminalEvent, ih]

lemma generic_failure_msg_ne_empty (e : String) : ("예기치 못한 오류: " ++ e) ≠ "" := by
  intro h
  have h2 : ("예기치 못한 오류: " ++ e).length = (0 : Nat) := by rw [h]; rfl
  rw [String.length_append] at h2
  have h3 : (0 : Nat) < ("예기치 못한 오류: " : String).length := by decide
  omega

/-- C1: under the collaborator contract (exactly one terminal outcome: a
terminal callback, or a raise with no terminal callback), `PipelineWorker.run`
emits exactly one terminal signal — never zero, never more than one — and
when the collaborator raised an error not reported through the error hook,
the worker itself emits exactly one final `failed` signal with the non-empty
generic diagnostic message; `workerRun` is a total function into event lists,
so no raised exception ever crosses into the UI context. -/
theorem c1_terminal_event_exactness (b : PipelineBehavior) (hw : WellBehaved b) :
    (workerRun b).countP isTerminalEvent = 1 ∧
    (∀ e : String, b.outcome = some e →
      (workerRun b).getLast? =
        some (PipelineEvent.failedEvt ("예기치 못한 오류: " ++ e)) ∧
      ("예기치 못한 오류: " ++ e) ≠ "") := by
  constructor
  · unfold WellBehaved at hw
    unfold workerRun
    rw [List.countP_append, runEmit_countP_terminal]
    cases h : b.outcome with
    | none => simpa [raisedEvents, h, outcomeCount] using hw
    | some e =>
        simpa [raisedEvents, h, outcomeCount, List.countP_cons, isTerminalEvent] using hw
  · intro e he
    refine ⟨?_, generic_failure_msg_ne_empty e⟩
    unfold workerRun
    rw [he]
    simp [raisedEvents]

/-- Witness for C1: a collaborator that throws mid-run after one log line,
without calling the error or completion hook. -/
theorem c1_terminal_event_exactness_witness :
    WellBehaved ⟨[HookCall.logMsg "a"], some "boom"⟩ ∧
    (workerRun ⟨[HookCall.logMsg "a"], some "boom"⟩).countP isTerminalEvent = 1 := by
  have h : WellBehaved ⟨[HookCall.logMsg "a"], some "boom"⟩ := by
    unfold WellBehaved outcomeCount
    decide
  exact ⟨h, (c1_terminal_event_exactness ⟨[HookCall.logMsg "a"], some "boom"⟩ h).1⟩

/-- The value of the `last_progress` local after processing a list of hook
calls, starting from `lp`. -/
def lastProgressAfter (lp : ℚ) : List HookCall → ℚ
  | [] => lp
  | HookCall.setStatus _ (some q) :: rest => lastProgressAfter q rest
  | HookCall.setStatus _ none :: rest => lastProgressAfter lp rest
  | HookCall.logMsg _ :: rest => lastProgressAfter lp rest
  | HookCall.showError _ _ :: rest => lastProgressAfter lp rest
  | HookCall.onFinished _ :: rest => lastProgressAfter lp rest

/-- Specification-side notion: the last explicitly supplied percentage in a
list of hook calls, if any. -/
def lastExplicitPct : List HookCall → Option ℚ
  | [] => none
  | HookCall.setStatus _ (some q) :: rest => some ((lastExplicitPct rest).getD q)
  | HookCall.setStatus _ none :: rest => lastExplicitPct rest
  | HookCall.logMsg _ :: rest => lastExplicitPct rest
  | HookCall.showError _ _ :: rest => lastExplicitPct rest
  | HookCall.onFinished _ :: rest => lastExplicitPct rest

lemma lastProgressAfter_eq_getD (lp : ℚ) (cs : List HookCall) :
    lastProgressAfter lp cs = (lastExplicitPct cs).getD lp := by
  induction cs generalizing lp with
  | nil => rfl
  | cons c rest ih =>
      cases c with
      | logMsg m => simp [lastProgressAfter, lastExplicitPct, ih]
      | setStatus t p =>
          cases p with
          | some q =>
              simp only [lastProgressAfter, lastExplicitPct, ih]
              cases lastExplicitPct rest <;> rfl
          | none => simp [lastProgressAfter, lastExplicitPct, ih]
      | showError ti tx => simp [lastProgressAfter, lastExplicitPct, ih]
      | onFinished p => simp [lastProgressAfter, lastExplicitPct, ih]

lemma runEmit_append (cs ds : List HookCall) (lp : ℚ) :
    runEmit (cs ++ ds) lp = runEmit cs lp ++ runEmit ds (lastProgressAfter lp cs) := by
  induction cs generalizing lp with
  | nil => rfl
  | cons c rest ih =>
      cases c with
      | logMsg m => simp [runEmit, lastProgressAfter, ih]
      | setStatus t p =>
          cases p with
          | some q => simp [runEmit, lastProgressAfter, ih]
          | none => simp [runEmit, lastProgressAfter, ih]
      | showError ti tx => simp [runEmit, lastProgressAfter, ih]
      | onFinished p => simp [runEmit, lastProgressAfter, ih]

lemma runEmit_length (cs : List HookCall) (lp : ℚ) :
    (runEmit cs lp).length = cs.length := by
  induction cs generalizing lp with
  | nil => rfl
  | cons c rest ih =>
      cases c with
      | logMsg m => simp [runEmit, ih]
      | setStatus t p => cases p <;> simp [runEmit, ih]
      | showError ti tx => simp [runEmit, ih]
      | onFinished p => simp [runEmit, ih]

lemma getElem?_append_cons {α : Type} (l1 l2 : List α) (a : α) :
    (l1 ++ a :: l2)[l1.length]? = some a := by
  induction l1 with
  | nil => simp
  | cons x rest ih => simpa using ih

/-- The signal emitted for the `i`-th hook call, where the calls split as
`cs ++ [setStatus t none] ++ ds` and `i = cs.length`, carries the last
progress value threaded through `cs`. -/
lemma workerRun_omitted_status (b : PipelineBehavior) (cs ds : List HookCall)
    (t : String) (hsplit : b.calls = cs ++ HookCall.setStatus t none :: ds) :
    (workerRun b)[cs.length]? =
      some (PipelineEvent.statusEvt t (lastProgressAfter 0 cs)) := by
  unfold workerRun
  rw [hsplit, runEmit_append]
  show ((runEmit cs 0 ++ _) ++ _)[cs.length]? = _
  rw [List.append_assoc]
  have hlen : cs.length = (runEmit cs 0).length := (runEmit_length cs 0).symm
  rw [hlen]
  simp only [runEmit]
  exact getElem?_append_cons _ _ _

/-- C2: in any run, when the collaborator invokes the status hook without a
percentage after some percentage `q` was explicitly supplied, the status
signal delivered to the handler carries exactly `q` — the last explicitly
supplied percentage — never a reset to `0` and never an absent value (the
emitted signal always carries a concrete percentage). -/
theorem c2_sticky_percentage (b : PipelineBehavior) (cs ds : List HookCall)
    (t : String) (q : ℚ) (hsplit : b.calls = cs ++ HookCall.setStatus t none :: ds)
    (hlast : lastExplicitPct cs = some q) :
    (workerRun b)[cs.length]? = some (PipelineEvent.statusEvt t q) := by
  have h := workerRun_omitted_status b cs ds t hsplit
  rwa [lastProgressAfter_eq_getD, hlast] at h

/-- Witness for C2: an explicit `10` followed by an omitted percentage; the
second status signal still carries `10`. -/
theorem c2_sticky_percentage_witness :
    (⟨[HookCall.setStatus "a" (some 10), HookCall.setStatus "b" none],
       none⟩ : PipelineBehavior).calls =
      [HookCall.setStatus "a" (some 10)] ++ HookCall.setStatus "b" none :: [] ∧
    lastExplicitPct [HookCall.setStatus "a" (some 10)] = some 10 ∧
    (workerRun ⟨[HookCall.setStatus "a" (some 10), HookCall.setStatus "b" none], none⟩)[
      ([HookCall.setStatus "a" (some 10)] : List HookCall).length]? =
      some (PipelineEvent.statusEvt "b" 10) := by
  refine ⟨rfl, by decide, ?_⟩
  exact c2_sticky_percentage _ [HookCall.setStatus "a" (some 10)] [] "b" 10 rfl (by decide)

/-- C8: `last_progress` is initialised to `0.0` in every run, so a status
hook call that omits the percentage before any explicit percentage was
supplied is delivered with percentage `0` rather than an absent value. -/
theorem c8_initial_percentage_zero (b : PipelineBehavior) (cs ds : List HookCall)
    (t : String) (hsplit : b.calls = cs ++ HookCall.setStatus t none :: ds)
    (hnone : lastExplicitPct cs = none) :
    (workerRun b)[cs.length]? = some (PipelineEvent.statusEvt t 0) := by
  have h := workerRun_omitted_status b cs ds t hsplit
  rwa [lastProgressAfter_eq_getD, hnone] at h

/-- Witness for C8: the very first status call omits the percentage and is
delivered with `0`. -/
theorem c8_initial_percentage_zero_witness :
    (⟨[HookCall.setStatus "s" none], none⟩ : PipelineBehavior).calls =
      [] ++ HookCall.setStatus "s" none :: [] ∧
    lastExplicitPct ([] : List HookCall) = none ∧
    (workerRun ⟨[HookCall.setStatus "s" none], none⟩)[(0 : Nat)]? =
      some (PipelineEvent.statusEvt "s" 0) := by
  refine ⟨rfl, rfl, ?_⟩
  exact c8_initial_percentage_zero _ [] [] "s" rfl rfl

/-- Python `str.strip` whitespace test (space, tab, newline, return, vertical
tab, form feed). -/
def isPySpace (c : Char) : Bool :=
  c = ' ' || c = '\t' || c = '\n' || c = '\r' || c = '\x0b' || c = '\x0c'

/-- Drop leading whitespace characters. -/
def dropLeadingSpace : List Char → List Char
  | [] => []
  | c :: rest => if isPySpace c then dropLeadingSpace rest else c :: rest

/-- Python `str.strip()`: remove leading and trailing whitespace. -/
def pyStrip (s : String) : String :=
  String.mk ((dropLeadingSpace (dropLeadingSpace s.data.reverse).reverse))

/-- ASCII lowering of one character, as Python `str.lower()` acts on the
ASCII file extensions compared here. -/
def pyLowerChar (c : Char) : Char :=
  if c.isUpper then Char.ofNat (c.toNat + 32) else c

/-- Python `str.lower()` (ASCII fragment). -/
def pyLower (s : String) : String :=
  String.mk (s.data.map pyLowerChar)

/-- The filesystem oracle: `Path(p).exists()` and `Path(p).suffix` are
external I/O, abstracted as functions of the path string. -/
structure World where
  pathExists : String → Bool
  pathSuffix : String → String

/-- The persisted settings record handled by `settings.get_settings` /
`settings.save_settings`. -/
structure AppSettings where
  theme : String
  imageMaxEdge : Int
  imageQuality : Int
  outputDir : String
  keepBackup : Bool
  logMode : String
  openLogOnError : Bool
deriving DecidableEq, Repr

/-- The widget state of `MainWindow` that the bridge reads or writes: the
file path line edit, the six operation checkboxes, the enabled state driven
by `_update_precision_options_state` / `_update_image_controls_state`, the
progress bar, the status label, the log pane and the run button. -/
structure UIState where
  fileEdit : String
  cleanCheck : Bool
  imageCheck : Bool
  precisionCheck : Bool
  aggressiveCheck : Bool
  xmlcleanupCheck : Bool
  forceCustomCheck : Bool
  precisionOptsEnabled : Bool
  imageControlsEnabled : Bool
  progressBar : Int
  statusLabel : String
  logLines : List String
  runButtonEnabled : Bool
deriving DecidableEq, Repr

/-- The keyword arguments `PipelineWorker.__init__` copies from the UI at
submission (`path`, `use_clean`, `use_image`, `use_precision`, `aggressive`,
`do_xml_cleanup`, `force_custom`). -/
structure PipelineArgs where
  startPath : String
  useClean : Bool
  useImage : Bool
  usePrecision : Bool
  aggressive : Bool
  doXmlCleanup : Bool
  forceCustom : Bool
deriving DecidableEq, Repr

/-- The in-flight job record (`self._worker` / `self._worker_thread`): the
argument snapshot held by the `PipelineWorker`.  The `settingsSnap` field is
Modelled from the spec: `run_pipeline_core` (module `excel_suite_pipeline`,
not part of this repository's sources) reads the Settings Store, and the
spec requires it to read only a snapshot taken at submission; we record that
snapshot here so the in-flight job record fully determines the pipeline
invocation. -/
structure InFlightJob where
  args : PipelineArgs
  settingsSnap : AppSettings
deriving DecidableEq, Repr

/-- The supervisor-side state: the widgets, the live settings store and the
in-flight job handle. -/
structure SupState where
  ui : UIState
  settings : AppSettings
  inFlight : Option InFlightJob
deriving DecidableEq, Repr

/-- The validation failures of `_on_run_clicked`'s guard chain. -/
inductive ValidationError where
  | noFileSelected
  | fileNotFound
  | unsupportedExtension
  | noOperationSelected
  | precisionRequiresSubOption
deriving DecidableEq, Repr

/-- `path.suffix.lower() in (".xlsx", ".xlsm")`. -/
def allowedSuffix (w : World) (p : String) : Bool :=
  pyLower (w.pathSuffix p) == ".xlsx" || pyLower (w.pathSuffix p) == ".xlsm"

/-- The validation chain at the top of `MainWindow._on_run_clicked`, with
early returns: empty path, missing file, unsupported extension, no operation
selected, precision without a sub-option. -/
def validate (w : World) (u : UIState) : Option ValidationError :=
  let pathStr := pyStrip u.fileEdit
  if pathStr == "" then some ValidationError.noFileSelected
  else if !(w.pathExists pathStr) then some ValidationError.fileNotFound
  else if !(allowedSuffix w pathStr) then some ValidationError.unsupportedExtension
  else if !(u.cleanCheck || u.imageCheck || u.precisionCheck) then
    some ValidationError.noOperationSelected
  else if u.precisionCheck && !(u.aggressiveCheck || u.xmlcleanupCheck || u.forceCustomCheck) then
    some ValidationError.precisionRequiresSubOption
  else none

/-- Specification-side rendering of §4.3: the five checks as an ordered list
of (failure condition, error) pairs. -/
def orderedChecks (w : World) (u : UIState) : List (Bool × ValidationError) :=
  let pathStr := pyStrip u.fileEdit
  [(pathStr == "", ValidationError.noFileSelected),
   (!(w.pathExists pathStr), ValidationError.fileNotFound),
   (!(allowedSuffix w pathStr), ValidationError.unsupportedExtension),
   (!(u.cleanCheck || u.imageCheck || u.precisionCheck), ValidationError.noOperationSelected),
   (u.precisionCheck && !(u.aggressiveCheck || u.xmlcleanupCheck || u.forceCustomCheck),
     ValidationError.precisionRequiresSubOption)]

/-- Specification-side combinator: report the first failing check. -/
def firstFailure : List (Bool × ValidationError) → Option ValidationError
  | [] => none
  | (b, e) :: rest => if b then some e else firstFailure rest

/-- `MainWindow._update_precision_options_state`: when the precision checkbox
is off, the three sub-option checkboxes are unchecked and disabled; when on,
they are enabled. -/
def updatePrecisionOptionsState (u : UIState) : UIState :=
  if u.precisionCheck then { u with precisionOptsEnabled := true }
  else { u with
    aggressiveCheck := false
    xmlcleanupCheck := false
    forceCustomCheck := false
    precisionOptsEnabled := false }

/-- `MainWindow._update_image_controls_state`: the image sliders/edits follow
the image checkbox. -/
def updateImageControlsState (u : UIState) : UIState :=
  { u with imageControlsEnabled := u.imageCheck }

/-- Python `int(x)` on a non-negative percentage: truncation toward zero. -/
def pyInt (q : ℚ) : Int :=
  Int.tdiv q.num (Int.ofNat q.den)

/-- `MainWindow._set_status`: set the label; update the progress bar only
when a percentage is supplied. -/
def setStatusUI (u : UIState) (text : String) (progress : Option ℚ) : UIState :=
  match progress with
  | some q => { u with statusLabel := text, progressBar := pyInt q }
  | none => { u with statusLabel := text }

/-- `MainWindow._append_log`. -/
def appendLog (u : UIState) (m : String) : UIState :=
  { u with logLines := u.logLines ++ [m] }

/-- `MainWindow._reset_ui_after_finish`: clear the file path, uncheck the six
operation checkboxes (the image and precision checkboxes fire their connected
state-update slots), refresh the precision-option enablement, reset the
progress bar and the status label.  The log pane is not touched. -/
def resetUIAfterFinish (u : UIState) : UIState :=
  let u1 := { u with fileEdit := "", cleanCheck := false }
  let u2 := updateImageControlsState { u1 with imageCheck := false }
  let u3 := updatePrecisionOptionsState { u2 with precisionCheck := false }
  let u4 := { u3 with
    aggressiveCheck := false
    xmlcleanupCheck := false
    forceCustomCheck := false }
  let u5 := updatePrecisionOptionsState u4
  { u5 with progressBar := 0, statusLabel := "준비됨" }

/-- Side effects requested by the handlers: starting the worker thread,
spawning the daemon thread for `open_in_explorer_select`, and the three
QMessageBox flavours. -/
inductive UIAction where
  | startThread (job : InFlightJob)
  | spawnReveal (path : String)
  | msgInfo (text : String)
  | msgWarn (text : String)
  | msgCrit (text : String)
deriving DecidableEq, Repr

/-- The `PipelineWorker(...)` constructor call in `_on_run_clicked`: each
argument is read from the corresponding checkbox once, at submission. -/
def jobArgsOfUI (pathStr : String) (u : UIState) : PipelineArgs :=
  { startPath := pathStr
    useClean := u.cleanCheck
    useImage := u.imageCheck
    usePrecision := u.precisionCheck
    aggressive := u.aggressiveCheck
    doXmlCleanup := u.xmlcleanupCheck
    forceCustom := u.forceCustomCheck }

/-- The message box shown for each validation failure in `_on_run_clicked`. -/
def validationAction : ValidationError → String → UIAction
  | ValidationError.noFileSelected, _ => UIAction.msgWarn "대상 파일을 먼저 선택하세요."
  | ValidationError.fileNotFound, p => UIAction.msgCrit ("파일을 찾을 수 없습니다:\n" ++ p)
  | ValidationError.unsupportedExtension, _ => UIAction.msgCrit "지원 형식은 .xlsx / .xlsm 입니다."
  | ValidationError.noOperationSelected, _ => UIAction.msgInfo "실행할 기능을 하나 이상 선택하세요."
  | ValidationError.precisionRequiresSubOption, _ =>
      UIAction.msgWarn "정밀 슬리머 옵션을 1가지 이상 선택해야 합니다."

/-- The body of `MainWindow._on_run_clicked`: run the validation chain; on
failure show the message box and change nothing; on success clear the log
pane, reset the progress bar, set the starting status, disable the run
button, snapshot the job parameters and start the worker thread. -/
def onRunClicked (w : World) (s : SupState) : SupState × List UIAction :=
  let pathStr := pyStrip s.ui.fileEdit
  match validate w s.ui with
  | some ve => (s, [validationAction ve pathStr])
  | none =>
      let job : InFlightJob := { args := jobArgsOfUI pathStr s.ui, settingsSnap := s.settings }
      let u2 := { s.ui with
        logLines := []
        progressBar := 0
        statusLabel := "작업 시작..."
        runButtonEnabled := false }
      ({ s with ui := u2, inFlight := some job }, [UIAction.startThread job])

/-- The `on_finished` closure of `_on_run_clicked`: set the completion
status, re-enable the run button, show the information box, start the
explorer-reveal daemon thread inside `try`/`except Exception: pass` (a
failure to start it is swallowed), then reset the UI keeping the log.
`revealStartFails` models the swallowed exception branch. -/
def onFinishedHandler (s : SupState) (finalPath : String) (revealStartFails : Bool) :
    SupState × List UIAction :=
  let u1 := setStatusUI s.ui "모든 작업 완료" (some 100)
  let u2 := { u1 with runButtonEnabled := true }
  let acts := [UIAction.msgInfo ("모든 작업이 완료되었습니다.\n\n최종 결과 파일:\n" ++ finalPath)]
      ++ (if revealStartFails then [] else [UIAction.spawnReveal finalPath])
  ({ s with ui := resetUIAfterFinish u2 }, acts)

/-- The `on_failed` closure of `_on_run_clicked`: re-enable the run button,
set the error status (with no percentage, leaving the progress bar as it
was), show the critical box. -/
def onFailedHandler (s : SupState) (msg : String) : SupState × List UIAction :=
  let u1 := { s.ui with runButtonEnabled := true }
  ({ s with ui := setStatusUI u1 "오류 발생" none }, [UIAction.msgCrit msg])

/-- The events dispatched on the UI context: the run-button click (which Qt
suppresses while the button is disabled), the four worker signals, and the
connected widget/settings handlers. -/
inductive UIEvent where
  | clickRun (w : World)
  | workerLog (msg : String)
  | workerStatus (text : String) (progress : ℚ)
  | workerFinished (finalPath : String) (revealStartFails : Bool)
  | workerFailed (msg : String)
  | setFileText (text : String)
  | toggleClean (v : Bool)
  | toggleImage (v : Bool)
  | togglePrecision (v : Bool)
  | toggleAggressive (v : Bool)
  | toggleXmlCleanup (v : Bool)
  | toggleForceCustom (v : Bool)
  | setKeepBackup (v : Bool)
  | changeOutputDir (dir : String)
  | resetOutputDir
  | imageSettingsChanged (maxEdge quality : Int)
  | logSettingsChanged (verbose openOnError : Bool)
  | darkModeToggled (v : Bool)

/-- One step of the UI context: dispatch of one event to its handler, as
wired by the `connect` calls in `_build_ui` and `_on_run_clicked`. -/
def stepEv (s : SupState) : UIEvent → SupState × List UIAction
  | UIEvent.clickRun w =>
      if s.ui.runButtonEnabled then onRunClicked w s else (s, [])
  | UIEvent.workerLog m => ({ s with ui := appendLog s.ui m }, [])
  | UIEvent.workerStatus t q => ({ s with ui := setStatusUI s.ui t (some q) }, [])
  | UIEvent.workerFinished p f => onFinishedHandler s p f
  | UIEvent.workerFailed m => onFailedHandler s m
  | UIEvent.setFileText t => ({ s with ui := { s.ui with fileEdit := t } }, [])
  | UIEvent.toggleClean v => ({ s with ui := { s.ui with cleanCheck := v } }, [])
  | UIEvent.toggleImage v =>
      ({ s with ui := updateImageControlsState { s.ui with imageCheck := v } }, [])
  | UIEvent.togglePrecision v =>
      ({ s with ui := updatePrecisionOptionsState { s.ui with precisionCheck := v } }, [])
  | UIEvent.toggleAggressive v => ({ s with ui := { s.ui with aggressiveCheck := v } }, [])
  | UIEvent.toggleXmlCleanup v => ({ s with ui := { s.ui with xmlcleanupCheck := v } }, [])
  | UIEvent.toggleForceCustom v => ({ s with ui := { s.ui with forceCustomCheck := v } }, [])
  | UIEvent.setKeepBackup v => ({ s with settings := { s.settings with keepBackup := v } }, [])
  | UIEvent.changeOutputDir d =>
      if d == "" then (s, [])
      else ({ s with settings := { s.settings with outputDir := d } }, [])
  | UIEvent.resetOutputDir => ({ s with settings := { s.settings with outputDir := "" } }, [])
  | UIEvent.imageSettingsChanged me q =>
      ({ s with settings := { s.settings with imageMaxEdge := me, imageQuality := q } }, [])
  | UIEvent.logSettingsChanged v o =>
      ({ s with settings := { s.settings with
          logMode := if v then "verbose" else "minimal", openLogOnError := o } }, [])
  | UIEvent.darkModeToggled v =>
      ({ s with settings := { s.settings with theme := if v then "dark" else "light" } }, [])

/-- Terminal worker signals. -/
def isTerminalUIEvent : UIEvent → Bool
  | UIEvent.workerFinished _ _ => true
  | UIEvent.workerFailed _ => true
  | _ => false

/-- Events that only mutate widgets or the settings store (everything the
user can do from the UI while a job runs, other than clicking run). -/
def isMutationEvent : UIEvent → Bool
  | UIEvent.setFileText _ => true
  | UIEvent.toggleClean _ => true
  | UIEvent.toggleImage _ => true
  | UIEvent.togglePrecision _ => true
  | UIEvent.toggleAggressive _ => true
  | UIEvent.toggleXmlCleanup _ => true
  | UIEvent.toggleForceCustom _ => true
  | UIEvent.setKeepBackup _ => true
  | UIEvent.changeOutputDir _ => true
  | UIEvent.resetOutputDir => true
  | UIEvent.imageSettingsChanged _ _ => true
  | UIEvent.logSettingsChanged _ _ => true
  | UIEvent.darkModeToggled _ => true
  | _ => false

/-- Fold a list of events through `stepEv`, keeping the state. -/
def runEvents (s : SupState) : List UIEvent → SupState
  | [] => s
  | e :: es => runEvents (stepEv s e).1 es

lemma mutation_preserves_inFlight (s : SupState) (e : UIEvent)
    (hm : isMutationEvent e = true) : (stepEv s e).1.inFlight = s.inFlight := by
  cases e <;>
    simp_all [stepEv, isMutationEvent, appendLog, setStatusUI,
      updateImageControlsState, updatePrecisionOptionsState] <;>
    split <;> simp_all

/-- A ready idle window: a file chosen, the cleanup operation selected, run
button enabled, no job in flight. -/
def uiReady : UIState :=
  { fileEdit := "r.xlsx"
    cleanCheck := true
    imageCheck := false
    precisionCheck := false
    aggressiveCheck := false
    xmlcleanupCheck := false
    forceCustomCheck := false
    precisionOptsEnabled := false
    imageControlsEnabled := false
    progressBar := 0
    statusLabel := "준비됨"
    logLines := []
    runButtonEnabled := true }

/-- Default-looking settings record. -/
def settings0 : AppSettings :=
  { theme := "light"
    imageMaxEdge := 1600
    imageQuality := 80
    outputDir := ""
    keepBackup := false
    logMode := "minimal"
    openLogOnError := false }

/-- Idle supervisor state. -/
def sReady : SupState := { ui := uiReady, settings := settings0, inFlight := none }

/-- The same state with the run button disabled (a job in flight). -/
def sBusy : SupState :=
  { ui := { uiReady with runButtonEnabled := false }, settings := settings0, inFlight := none }

/-- A world where the chosen path exists with an allowed extension. -/
def wYes : World := { pathExists := fun _ => true, pathSuffix := fun _ => ".xlsx" }

/-- A world where the chosen path does not exist and also has a disallowed
extension. -/
def wNo : World := { pathExists := fun _ => false, pathSuffix := fun _ => ".txt" }

/-- C3: at most one job is in flight.  A run-button click while the button is
disabled (the busy flag, cleared only by the terminal handlers) is rejected:
the state is unchanged and no worker thread starts.  No event other than a
terminal worker signal ever re-enables the button, both terminal signals do
re-enable it, and once re-enabled a click that passes validation starts
exactly one new worker thread. -/
theorem c3_at_most_one_job :
    (∀ (s : SupState) (w : World), s.ui.runButtonEnabled = false →
      stepEv s (UIEvent.clickRun w) = (s, [])) ∧
    (∀ (s : SupState) (e : UIEvent), s.ui.runButtonEnabled = false →
      isTerminalUIEvent e = false → (stepEv s e).1.ui.runButtonEnabled = false) ∧
    (∀ (s : SupState) (p : String) (f : Bool),
      (stepEv s (UIEvent.workerFinished p f)).1.ui.runButtonEnabled = true) ∧
    (∀ (s : SupState) (m : String),
      (stepEv s (UIEvent.workerFailed m)).1.ui.runButtonEnabled = true) ∧
    (∀ (s : SupState) (w : World), s.ui.runButtonEnabled = true → validate w s.ui = none →
      (stepEv s (UIEvent.clickRun w)).2 =
        [UIAction.startThread { args := jobArgsOfUI (pyStrip s.ui.fileEdit) s.ui, settingsSnap := s.settings }]) := by
  refine ⟨?_, ?_, ?_, ?_, ?_⟩
  · intro s w h
    simp [stepEv, h]
  · intro s e h hnt
    cases e <;>
      simp_all [stepEv, isTerminalUIEvent, appendLog, setStatusUI,
        updateImageControlsState, updatePrecisionOptionsState] <;>
      split <;> simp_all
  · intro s p f
    rfl
  · intro s m
    rfl
  · intro s w hen hv
    simp [stepEv, hen, onRunClicked, hv]

/-- Witness for C3: a busy click is a no-op, terminal signals re-enable the
button, a ready valid click starts the thread. -/
theorem c3_at_most_one_job_witness :
    stepEv sBusy (UIEvent.clickRun wYes) = (sBusy, []) ∧
    (stepEv sBusy (UIEvent.workerLog "x")).1.ui.runButtonEnabled = false ∧
    (stepEv sBusy (UIEvent.workerFinished "out.xlsx" false)).1.ui.runButtonEnabled = true ∧
    (stepEv sBusy (UIEvent.workerFailed "err")).1.ui.runButtonEnabled = true ∧
    (stepEv sReady (UIEvent.clickRun wYes)).2 =
      [UIAction.startThread { args := jobArgsOfUI (pyStrip sReady.ui.fileEdit) sReady.ui, settingsSnap := sReady.settings }] :=
  ⟨c3_at_most_one_job.1 sBusy wYes rfl,
   c3_at_most_one_job.2.1 sBusy (UIEvent.workerLog "x") rfl rfl,
   c3_at_most_one_job.2.2.1 sBusy "out.xlsx" false,
   c3_at_most_one_job.2.2.2.1 sBusy "err",
   c3_at_most_one_job.2.2.2.2 sReady wYes rfl (by decide)⟩

/-- C4: validation runs its checks in the fixed order (path present, file
exists, extension allowed, some operation selected, precision sub-option
selected) and short-circuits on the first failure — `validate` equals the
first failing entry of the ordered check list — and in particular a
non-empty path that does not exist reports `fileNotFound` regardless of its
extension, never `unsupportedExtension`. -/
theorem c4_validation_order :
    (∀ (w : World) (u : UIState), validate w u = firstFailure (orderedChecks w u)) ∧
    (∀ (w : World) (u : UIState), pyStrip u.fileEdit ≠ "" →
      w.pathExists (pyStrip u.fileEdit) = false →
      validate w u = some ValidationError.fileNotFound) := by
  refine ⟨fun w u => rfl, fun w u h1 h2 => ?_⟩
  simp [validate, h1, h2]

/-- Witness for C4: a path that neither exists nor has an allowed extension
is reported as not found. -/
theorem c4_validation_order_witness :
    pyStrip uiReady.fileEdit ≠ "" ∧
    wNo.pathExists (pyStrip uiReady.fileEdit) = false ∧
    pyLower (wNo.pathSuffix (pyStrip uiReady.fileEdit)) = ".txt" ∧
    validate wNo uiReady = some ValidationError.fileNotFound :=
  ⟨by decide, rfl, by decide, c4_validation_order.2 wNo uiReady (by decide) rfl⟩

/-- C5: the in-flight job record is created once per submission from the UI
and settings snapshot and is immutable thereafter: a valid click stores
exactly the snapshot of the checkbox flags, the stripped target path and the
settings, and no sequence of UI or settings mutation events changes the
in-flight record, so two runs differing only in mid-job mutations invoke the
pipeline identically. -/
theorem c5_snapshot_isolation :
    (∀ (s : SupState) (w : World), s.ui.runButtonEnabled = true → validate w s.ui = none →
      (stepEv s (UIEvent.clickRun w)).1.inFlight =
        some { args := jobArgsOfUI (pyStrip s.ui.fileEdit) s.ui, settingsSnap := s.settings }) ∧
    (∀ (s : SupState) (es : List UIEvent), (∀ e ∈ es, isMutationEvent e = true) →
      (runEvents s es).inFlight = s.inFlight) := by
  constructor
  · intro s w hen hv
    simp [stepEv, hen, onRunClicked, hv]
  · intro s es
    induction es generalizing s with
    | nil => intro _; rfl
    | cons e rest ih =>
        intro h
        have he := h e (List.mem_cons_self e rest)
        have hr : ∀ x ∈ rest, isMutationEvent x = true :=
          fun x hx => h x (List.mem_cons_of_mem e hx)
        show (runEvents (stepEv s e).1 rest).inFlight = s.inFlight
        rw [ih _ hr]
        exact mutation_preserves_inFlight s e he

/-- The state right after a valid submission from `sReady`. -/
def sRunning : SupState := (stepEv sReady (UIEvent.clickRun wYes)).1

/-- Witness for C5: submitting from `sReady` snapshots the job, and toggling
a checkbox plus flipping a setting mid-job leaves the in-flight record
untouched. -/
theorem c5_snapshot_isolation_witness :
    (stepEv sReady (UIEvent.clickRun wYes)).1.inFlight =
      some { args := jobArgsOfUI (pyStrip sReady.ui.fileEdit) sReady.ui, settingsSnap := sReady.settings } ∧
    (runEvents sRunning
      [UIEvent.toggleClean false, UIEvent.togglePrecision true,
       UIEvent.setKeepBackup true, UIEvent.imageSettingsChanged 2000 90]).inFlight =
      sRunning.inFlight :=
  ⟨c5_snapshot_isolation.1 sReady wYes rfl (by decide),
   c5_snapshot_isolation.2 sRunning
     [UIEvent.toggleClean false, UIEvent.togglePrecision true,
      UIEvent.setKeepBackup true, UIEvent.imageSettingsChanged 2000 90] (by decide)⟩

/-- C6: on the `finished` terminal signal, the handler requests the
fire-and-forget explorer-reveal daemon thread; when starting that thread
fails, the exception is swallowed: the resulting supervisor state is
identical whether or not the reveal action could be started, and the handler
never emits a critical (failure) message box, so the successful outcome is
never turned into a job failure. -/
theorem c6_reveal_fire_and_forget :
    (∀ (s : SupState) (p : String),
      UIAction.spawnReveal p ∈ (stepEv s (UIEvent.workerFinished p false)).2) ∧
    (∀ (s : SupState) (p : String) (f1 f2 : Bool),
      (stepEv s (UIEvent.workerFinished p f1)).1 =
        (stepEv s (UIEvent.workerFinished p f2)).1) ∧
    (∀ (s : SupState) (p : String) (f : Bool) (m : String),
      UIAction.msgCrit m ∉ (stepEv s (UIEvent.workerFinished p f)).2) := by
  refine ⟨?_, ?_, ?_⟩
  · intro s p
    simp [stepEv, onFinishedHandler]
  · intro s p f1 f2
    rfl
  · intro s p f m
    cases f <;> simp [stepEv, onFinishedHandler]

/-- C7: after the `finished` terminal signal the handler resets all operation
state — the selected file path, the three top-level operation checkboxes,
the three precision sub-option checkboxes, the progress bar and the status
text — while the accumulated log lines are left exactly as they were. -/
theorem c7_success_reset_preserves_log (s : SupState) (p : String) (f : Bool) :
    (stepEv s (UIEvent.workerFinished p f)).1.ui.fileEdit = "" ∧
    (stepEv s (UIEvent.workerFinished p f)).1.ui.cleanCheck = false ∧
    (stepEv s (UIEvent.workerFinished p f)).1.ui.imageCheck = false ∧
    (stepEv s (UIEvent.workerFinished p f)).1.ui.precisionCheck = false ∧
    (stepEv s (UIEvent.workerFinished p f)).1.ui.aggressiveCheck = false ∧
    (stepEv s (UIEvent.workerFinished p f)).1.ui.xmlcleanupCheck = false ∧
    (stepEv s (UIEvent.workerFinished p f)).1.ui.forceCustomCheck = false ∧
    (stepEv s (UIEvent.workerFinished p f)).1.ui.progressBar = 0 ∧
    (stepEv s (UIEvent.workerFinished p f)).1.ui.statusLabel = "준비됨" ∧
    (stepEv s (UIEvent.workerFinished p f)).1.ui.logLines = s.ui.logLines :=
  ⟨rfl, rfl, rfl, rfl, rfl, rfl, rfl, rfl, rfl, rfl⟩

/-- C9: on the `failed` terminal signal the handler only re-enables the run
button, sets the error status text and shows the error box; the selected
file path, the six operation/precision checkboxes, the progress bar value
and the log lines are all left unchanged — the full reset happens only on
success. -/
theorem c9_failure_frame (s : SupState) (m : String) :
    (stepEv s (UIEvent.workerFailed m)).1.ui.runButtonEnabled = true ∧
    (stepEv s (UIEvent.workerFailed m)).1.ui.statusLabel = "오류 발생" ∧
    (stepEv s (UIEvent.workerFailed m)).1.ui.fileEdit = s.ui.fileEdit ∧
    (stepEv s (UIEvent.workerFailed m)).1.ui.cleanCheck = s.ui.cleanCheck ∧
    (stepEv s (UIEvent.workerFailed m)).1.ui.imageCheck = s.ui.imageCheck ∧
    (stepEv s (UIEvent.workerFailed m)).1.ui.precisionCheck = s.ui.precisionCheck ∧
    (stepEv s (UIEvent.workerFailed m)).1.ui.aggressiveCheck = s.ui.aggressiveCheck ∧
    (stepEv s (UIEvent.workerFailed m)).1.ui.xmlcleanupCheck = s.ui.xmlcleanupCheck ∧
    (stepEv s (UIEvent.workerFailed m)).1.ui.forceCustomCheck = s.ui.forceCustomCheck ∧
    (stepEv s (UIEvent.workerFailed m)).1.ui.progressBar = s.ui.progressBar ∧
    (stepEv s (UIEvent.workerFailed m)).1.ui.logLines = s.ui.logLines ∧
    (stepEv s (UIEvent.workerFailed m)).2 = [UIAction.msgCrit m] :=
  ⟨rfl, rfl, rfl, rfl, rfl, rfl, rfl, rfl, rfl, rfl, rfl, rfl⟩

/-- C10: a submission that passes validation clears the log pane, resets the
progress bar to `0` and sets the starting status text in the very step that
disables the button and starts the worker thread, so nothing from a previous
run is visible during the new run. -/
theorem c10_fresh_run_clean_slate (s : SupState) (w : World)
    (hen : s.ui.runButtonEnabled = true) (hv : validate w s.ui = none) :
    (stepEv s (UIEvent.clickRun w)).1.ui.logLines = [] ∧
    (stepEv s (UIEvent.clickRun w)).1.ui.progressBar = 0 ∧
    (stepEv s (UIEvent.clickRun w)).1.ui.statusLabel = "작업 시작..." ∧
    (stepEv s (UIEvent.clickRun w)).1.ui.runButtonEnabled = false ∧
    (stepEv s (UIEvent.clickRun w)).2 =
      [UIAction.startThread { args := jobArgsOfUI (pyStrip s.ui.fileEdit) s.ui, settingsSnap := s.settings }] := by
  simp [stepEv, hen, onRunClicked, hv]

/-- Witness for C10: the concrete ready state with stale log and progress is
wiped on submission. -/
theorem c10_fresh_run_clean_slate_witness :
    uiReady.runButtonEnabled = true ∧ validate wYes uiReady = none ∧
    ((stepEv sReady (UIEvent.clickRun wYes)).1.ui.logLines = [] ∧
     (stepEv sReady (UIEvent.clickRun wYes)).1.ui.progressBar = 0 ∧
     (stepEv sReady (UIEvent.clickRun wYes)).1.ui.statusLabel = "작업 시작..." ∧
     (stepEv sReady (UIEvent.clickRun wYes)).1.ui.runButtonEnabled = false ∧
     (stepEv sReady (UIEvent.clickRun wYes)).2 =
       [UIAction.startThread { args := jobArgsOfUI (pyStrip sReady.ui.fileEdit) sReady.ui, settingsSnap := sReady.settings }]) :=
  ⟨rfl, by decide, c10_fresh_run_clean_slate sReady wYes rfl (by decide)⟩
